import Mathlib

/-!
Shallow embedding of `wasmer-host/src/wasmer_host.rs`.

The host bridges to a sandboxed wasm module: it writes request bytes into the
module's linear memory at a negotiated buffer offset, invokes a named export
with integer handles/lengths, and reads the response bytes back from the same
offset.

Modelling conventions:
* Linear memory and byte payloads are `List Nat` (byte values).
* Rust `i32` is `Int`; the casts `as usize` / `as i32` / `as u32` are modelled
  with explicit `% 2 ^ w` arithmetic (`as usize` sign-extends an `i32` to
  64 bits, so a negative value becomes a number near `2 ^ 64`).
* A Rust `String` is represented by its UTF-8 byte sequence together with the
  `utf8Valid` predicate (a Rust `String` is exactly its valid-UTF-8 bytes).
* Fallible steps return `Except Failure _`.  A `Failure.panicked _` is a Rust
  panic (an `unwrap` on `Err`/`None`, or a slice-index-out-of-range abort): it
  terminates the process.  A `Failure.typed _` is an error value returned to
  the caller through `Result` via the `?` operator.
* The wasm module itself is external: it is modelled as a `ModuleBehaviour`
  oracle giving the exported memory, the set of exported functions, and the
  semantics of calling an export (which may trap, and may rewrite memory).
  The module registry and the import assembly are external collaborators and
  enter as parameters (`Registry`); instantiation failure is the `none` case
  of `CompiledModule.instantiate` (this also covers failures inside
  `init_wasi_dev_imports`, which the Rust code unwraps before instantiating).
* Each operation additionally returns the list of export invocations it
  performed (name and integer arguments, in order).  This call log is pure
  instrumentation used by the specification; it does not alter the data flow
  translated from the source.
* Memory allocation (`Vec::with_capacity` / `resize`) is assumed to succeed;
  `resize(n, 0)` followed by `copy_from_slice(&data[a..a+n])` with equal
  lengths is modelled as the slice read itself.
-/

/-- A byte sequence / region of linear memory. -/
abbrev Mem := List Nat

/-- One recorded guest-export invocation: export name and i32 arguments. -/
abbrev GuestCall := String × List Int

/-- A Rust panic: the process terminates.  `memoryAccessFault` is the
slice-index-out-of-range panic raised by the `buffer[a..b]` indexing in
`slice_to_buffer` / `read_returned_value` (the spec's `MemoryAccessFault`);
`unwrapFailed site` is an `unwrap` of an `Err`/`None` at the named call site. -/
inductive Panic where
  | memoryAccessFault
  | unwrapFailed (site : String)
  deriving DecidableEq

/-- An error value returned to the caller as a typed `Result` via `?`. -/
inductive TypedErr where
  | exportMissing (name : String)
  | guestTrap (name : String)
  deriving DecidableEq

/-- Outcome of a failing step: a process-terminating panic, or a typed error
propagated to the immediate caller. -/
inductive Failure where
  | panicked (p : Panic)
  | typed (e : TypedErr)
  deriving DecidableEq

/-- `x as usize` for `x : i32`: sign-extension to 64 bits. -/
def i32AsUsize (x : Int) : Nat := (x % (2 : Int) ^ 64).toNat

/-- `n as i32` for `n : usize`: truncation to 32 bits, two's complement. -/
def usizeAsI32 (n : Nat) : Int :=
  if n % 2 ^ 32 < 2 ^ 31 then ((n % 2 ^ 32 : Nat) : Int)
  else ((n % 2 ^ 32 : Nat) : Int) - 2 ^ 32

/-- `x as u32` for `x : i32`. -/
def i32AsU32 (x : Int) : Nat := (x % (2 : Int) ^ 32).toNat

/-- Rust slice read `buffer[a..a+n].to_vec()`: panics (index out of range)
when the end index exceeds the slice length. -/
def sliceRange (buffer : Mem) (a n : Nat) : Except Panic Mem :=
  if a + n ≤ buffer.length then .ok ((buffer.drop a).take n)
  else .error .memoryAccessFault

/-- Rust slice write `buffer[a..a+src.len()].copy_from_slice(src)`: panics
(index out of range) before writing anything when the end index exceeds the
slice length; otherwise replaces exactly that range. -/
def writeRange (buffer : Mem) (a : Nat) (src : Mem) : Except Panic Mem :=
  if a + src.length ≤ buffer.length then
    .ok (buffer.take a ++ src ++ buffer.drop (a + src.length))
  else .error .memoryAccessFault

/-- Observable behaviour of one instantiated wasm module (the guest side of
the bridge): whether the `"memory"` export exists, which function exports
exist, the initial linear-memory contents, and the semantics of invoking an
export, which either traps (`none`) or returns a single `i32` result together
with the linear memory as rewritten by the guest. -/
structure ModuleBehaviour where
  hasMemory : Bool
  hasExport : String → Bool
  initMem : Mem
  call : String → List Int → Mem → Option (Int × Mem)

/-- A compiled module artifact from the registry; `instantiate` is `none` when
`Instance::new` (or import assembly) fails. -/
structure CompiledModule where
  instantiate : Option ModuleBehaviour

/-- The module registry, an external collaborator: resolves a runtime name. -/
abbrev Registry := String → Option CompiledModule

/-- The `WasmerHost` struct: the instance (its behaviour and current linear
memory) plus the three integers obtained by the bootstrap handshake. -/
structure WasmerHost where
  module : ModuleBehaviour
  memory : Mem
  js_rt_ptr : Int
  async_rt_ptr : Int
  parameter_buffer_ptr : Int

/-- `self.parameter_buffer_ptr as usize`. -/
def WasmerHost.bufPtr (h : WasmerHost) : Nat := i32AsUsize h.parameter_buffer_ptr

/-- `read_returned_value`: reads `len as usize` bytes from the buffer offset. -/
def WasmerHost.read_returned_value (h : WasmerHost) (buffer : Mem) (len : Int) :
    Except Panic Mem :=
  sliceRange buffer h.bufPtr (i32AsUsize len)

/-- `slice_to_buffer`: copies `source` into memory at the buffer offset. -/
def WasmerHost.slice_to_buffer (h : WasmerHost) (buffer : Mem) (source : Mem) :
    Except Panic Mem :=
  writeRange buffer h.bufPtr source

/-- The memory contents after a successful `slice_to_buffer` of `src`. -/
def WasmerHost.writtenMem (h : WasmerHost) (src : Mem) : Mem :=
  h.memory.take h.bufPtr ++ src ++ h.memory.drop (h.bufPtr + src.length)

/-- `new_wasi_dev_instance`: resolve the runtime name through the registry and
instantiate (both sites `unwrap`, so both failures are panics). -/
def new_wasi_dev_instance (registry : Registry) (runtime : String) :
    Except Failure ModuleBehaviour :=
  match registry runtime with
  | none => .error (.panicked (.unwrapFailed "registry get_module"))
  | some compiled =>
    match compiled.instantiate with
    | none => .error (.panicked (.unwrapFailed "Instance new"))
    | some b => .ok b

/-- `WasmerHost::new_wasi_dev`: instantiate, then the three-call handshake
(`new_runtime`, `new_async_runtime`, `parameter_buffer_ptr`), each a
zero-argument export looked up and called with `unwrap` at every step. -/
def new_wasi_dev (registry : Registry) (runtime : String) :
    Except Failure (WasmerHost × List GuestCall) :=
  match new_wasi_dev_instance registry runtime with
  | .error e => .error e
  | .ok b =>
    if b.hasExport "new_runtime" then
      match b.call "new_runtime" [] b.initMem with
      | none => .error (.panicked (.unwrapFailed "new_runtime call"))
      | some (js_rt_ptr, m1) =>
        if b.hasExport "new_async_runtime" then
          match b.call "new_async_runtime" [] m1 with
          | none => .error (.panicked (.unwrapFailed "new_async_runtime call"))
          | some (async_rt_ptr, m2) =>
            if b.hasExport "parameter_buffer_ptr" then
              match b.call "parameter_buffer_ptr" [] m2 with
              | none => .error (.panicked (.unwrapFailed "parameter_buffer_ptr call"))
              | some (parameter_buffer_ptr, m3) =>
                .ok ({ module := b, memory := m3, js_rt_ptr := js_rt_ptr,
                       async_rt_ptr := async_rt_ptr,
                       parameter_buffer_ptr := parameter_buffer_ptr },
                     [("new_runtime", []), ("new_async_runtime", []),
                      ("parameter_buffer_ptr", [])])
            else .error (.panicked (.unwrapFailed "get_function parameter_buffer_ptr"))
        else .error (.panicked (.unwrapFailed "get_function new_async_runtime"))
    else .error (.panicked (.unwrapFailed "get_function new_runtime"))

/-- `WasmHost::compile_to_bytecode` for `WasmerHost`.  The first `&str`
argument is unnamed (`_`) in the source and unused.  `get_memory` and
`get_function` failures propagate via `?` (typed); the buffer write and the
read-back can panic; the export call's trap propagates via `?` (typed).  The
final `Vec` construction (`with_capacity` / `resize` / `copy_from_slice`) is
the slice read of `bytecode_size as usize` bytes at the buffer offset. -/
def WasmerHost.compile_to_bytecode (h : WasmerHost) (_runtimeName : String)
    (code : Mem) : Except Failure (Mem × WasmerHost × List GuestCall) :=
  if h.module.hasMemory then
    match h.slice_to_buffer h.memory code with
    | .error p => .error (.panicked p)
    | .ok data1 =>
      if h.module.hasExport "compile_module" then
        match h.module.call "compile_module"
            [h.async_rt_ptr, h.js_rt_ptr, usizeAsI32 code.length] data1 with
        | none => .error (.typed (.guestTrap "compile_module"))
        | some (bytecode_size, data2) =>
          match sliceRange data2 h.bufPtr (i32AsUsize bytecode_size) with
          | .error p => .error (.panicked p)
          | .ok bytecode =>
            .ok (bytecode, { h with memory := data2 },
                 [("compile_module",
                   [h.async_rt_ptr, h.js_rt_ptr, usizeAsI32 code.length])])
      else .error (.typed (.exportMissing "compile_module"))
  else .error (.typed (.exportMissing "memory"))

/-- `WasmHost::eval` for `WasmerHost`.  Returns `()`; every failure site uses
`unwrap`, so every failure is a panic.  The guest may mutate memory, so the
updated host is returned alongside. -/
def WasmerHost.eval (h : WasmerHost) (js : Mem) :
    Except Failure (Unit × WasmerHost × List GuestCall) :=
  if h.module.hasMemory then
    if h.module.hasExport "run" then
      match h.slice_to_buffer h.memory js with
      | .error p => .error (.panicked p)
      | .ok data1 =>
        match h.module.call "run"
            [h.async_rt_ptr, h.js_rt_ptr, usizeAsI32 js.length] data1 with
        | none => .error (.panicked (.unwrapFailed "run call"))
        | some (_, data2) =>
          .ok ((), { h with memory := data2 },
               [("run", [h.async_rt_ptr, h.js_rt_ptr, usizeAsI32 js.length])])
    else .error (.panicked (.unwrapFailed "get_function run"))
  else .error (.panicked (.unwrapFailed "get_memory"))

/-- Modelled from the spec: `RunModuleFunctionParameters` lives in the
`protocol` crate, which is not under `src/`.  Per the spec it is "a structured
request" carrying the caller's content (the §8 scenario shows a function name
and arguments) plus a runtime field that `set_rt` overwrites with the current
script-engine handle. -/
structure RunModuleFunctionParameters where
  functionName : String
  args : List String
  rt : Nat
  deriving DecidableEq

/-- `RunModuleFunctionParameters::set_rt`: overwrite the runtime field. -/
def RunModuleFunctionParameters.set_rt (p : RunModuleFunctionParameters)
    (v : Nat) : RunModuleFunctionParameters :=
  { p with rt := v }

/-- The generic binary codec (`bincode::serialize`), an external collaborator
used as a black box: `none` models a serialization failure. -/
abbrev Serializer := RunModuleFunctionParameters → Option Mem

/-- The exact request value handed to the codec inside `run_module_function`:
the caller's parameters with the runtime field overwritten by
`self.js_rt_ptr as u32`. -/
def WasmerHost.serializedRequest (h : WasmerHost)
    (p : RunModuleFunctionParameters) : RunModuleFunctionParameters :=
  p.set_rt (i32AsU32 h.js_rt_ptr)

/-- UTF-8 continuation byte (`0x80..=0xBF`). -/
def utf8ContByte (b : Nat) : Bool := 0x80 ≤ b && b ≤ 0xBF

/-- Exact UTF-8 validity of a byte sequence (what `String::from_utf8`
accepts): rejects overlong encodings, surrogates and values above U+10FFFF. -/
def utf8Valid : List Nat → Bool
  | [] => true
  | b0 :: rest =>
    if b0 ≤ 0x7F then utf8Valid rest
    else if 0xC2 ≤ b0 && b0 ≤ 0xDF then
      match rest with
      | b1 :: r => utf8ContByte b1 && utf8Valid r
      | [] => false
    else if b0 = 0xE0 then
      match rest with
      | b1 :: b2 :: r => (0xA0 ≤ b1 && b1 ≤ 0xBF) && utf8ContByte b2 && utf8Valid r
      | _ => false
    else if (0xE1 ≤ b0 && b0 ≤ 0xEC) || b0 = 0xEE || b0 = 0xEF then
      match rest with
      | b1 :: b2 :: r => utf8ContByte b1 && utf8ContByte b2 && utf8Valid r
      | _ => false
    else if b0 = 0xED then
      match rest with
      | b1 :: b2 :: r => (0x80 ≤ b1 && b1 ≤ 0x9F) && utf8ContByte b2 && utf8Valid r
      | _ => false
    else if b0 = 0xF0 then
      match rest with
      | b1 :: b2 :: b3 :: r =>
        (0x90 ≤ b1 && b1 ≤ 0xBF) && utf8ContByte b2 && utf8ContByte b3 && utf8Valid r
      | _ => false
    else if 0xF1 ≤ b0 && b0 ≤ 0xF3 then
      match rest with
      | b1 :: b2 :: b3 :: r =>
        utf8ContByte b1 && utf8ContByte b2 && utf8ContByte b3 && utf8Valid r
      | _ => false
    else if b0 = 0xF4 then
      match rest with
      | b1 :: b2 :: b3 :: r =>
        (0x80 ≤ b1 && b1 ≤ 0x8F) && utf8ContByte b2 && utf8ContByte b3 && utf8Valid r
      | _ => false
    else false

/-- `WasmHost::run_module_function` for `WasmerHost`.  `get_memory`,
`get_function`, `bincode::serialize` and `String::from_utf8` all `unwrap`
(panics); only the export call's trap propagates via `?` (typed).  The
returned text is represented by its UTF-8 bytes (accepted by `utf8Valid`). -/
def WasmerHost.run_module_function (h : WasmerHost) (ser : Serializer)
    (parameters : RunModuleFunctionParameters) :
    Except Failure (Mem × WasmerHost × List GuestCall) :=
  if h.module.hasMemory then
    if h.module.hasExport "run_module_function" then
      match ser (h.serializedRequest parameters) with
      | none => .error (.panicked (.unwrapFailed "bincode serialize"))
      | some serialized =>
        match h.slice_to_buffer h.memory serialized with
        | .error p => .error (.panicked p)
        | .ok data1 =>
          match h.module.call "run_module_function"
              [h.async_rt_ptr, usizeAsI32 serialized.length] data1 with
          | none => .error (.typed (.guestTrap "run_module_function"))
          | some (res, data2) =>
            match h.read_returned_value data2 res with
            | .error p => .error (.panicked p)
            | .ok json_bytes =>
              if utf8Valid json_bytes then
                .ok (json_bytes, { h with memory := data2 },
                     [("run_module_function",
                       [h.async_rt_ptr, usizeAsI32 serialized.length])])
              else .error (.panicked (.unwrapFailed "from_utf8"))
    else .error (.panicked (.unwrapFailed "get_function run_module_function"))
  else .error (.panicked (.unwrapFailed "get_memory"))

/-- The free-function public entry point `compile_to_bytecode(runtime, js)`:
bootstraps a fresh `WasmerHost` via `new_wasi_dev` and performs one compile
call on it, passing the fixed literal `"mod1"` as the unused first argument. -/
def compile_to_bytecode (registry : Registry) (runtime : String) (js : Mem) :
    Except Failure (Mem × List GuestCall) :=
  match new_wasi_dev registry runtime with
  | .error e => .error e
  | .ok (rt, log0) =>
    match rt.compile_to_bytecode "mod1" js with
    | .error e => .error e
    | .ok (bytes, _, log1) => .ok (bytes, log0 ++ log1)

/-! ### Concrete fixtures for witnesses and counterexamples -/

/-- A concrete well-behaved guest module: 8-byte memory, buffer offset 2,
handshake handles 7 and 9, a compile export answering 3 bytes `[10, 11, 12]`
and a dispatch export answering 2 bytes `[65, 66]` (the text "AB"). -/
def exModule : ModuleBehaviour where
  hasMemory := true
  hasExport := fun _ => true
  initMem := [0, 0, 0, 0, 0, 0, 0, 0]
  call := fun name _ mem =>
    if name = "new_runtime" then some (7, mem)
    else if name = "new_async_runtime" then some (9, mem)
    else if name = "parameter_buffer_ptr" then some (2, mem)
    else if name = "compile_module" then some (3, [0, 0, 10, 11, 12, 0, 0, 0])
    else if name = "run_module_function" then some (2, [0, 0, 65, 66, 0, 0, 0, 0])
    else if name = "run" then some (0, mem)
    else none

/-- The host obtained by bootstrapping `exModule`. -/
def exHost : WasmerHost where
  module := exModule
  memory := [0, 0, 0, 0, 0, 0, 0, 0]
  js_rt_ptr := 7
  async_rt_ptr := 9
  parameter_buffer_ptr := 2

/-- A registry resolving only the name "mod1", to `exModule`. -/
def exReg : Registry := fun s => if s = "mod1" then some ⟨some exModule⟩ else none

/-- `exModule` with the `"memory"` export absent. -/
def noMemModule : ModuleBehaviour :=
  { exModule with hasMemory := false }

/-- A host over `noMemModule`: every operation needing memory must fail. -/
def noMemHost : WasmerHost :=
  { exHost with module := noMemModule }

/-- A guest module whose compile and dispatch exports return the length -1. -/
def negLenModule : ModuleBehaviour :=
  { exModule with
    call := fun name _ mem =>
      if name = "compile_module" then some (-1, mem)
      else if name = "run_module_function" then some (-1, mem)
      else exModule.call name [] mem }

/-- A host over `negLenModule`. -/
def negLenHost : WasmerHost :=
  { exHost with module := negLenModule }

/-- A trivial concrete codec: the request becomes the single byte of its
runtime field (reduced mod 256). -/
def exSer : Serializer := fun p => some [p.rt % 256]

/-- Whether an operation outcome is a typed error returned to the caller. -/
def resultTyped {α : Type} : Except Failure α → Bool
  | .error (.typed _) => true
  | _ => false

/-- Whether an operation outcome is a process-terminating panic. -/
def resultPanicked {α : Type} : Except Failure α → Bool
  | .error (.panicked _) => true
  | _ => false

/-- `exModule` with every function export absent (memory still exported). -/
def noFnModule : ModuleBehaviour :=
  { exModule with hasExport := fun _ => false }

/-- A host over `noFnModule`. -/
def noFnHost : WasmerHost :=
  { exHost with module := noFnModule }

/-- `exModule` with every export call trapping. -/
def trapModule : ModuleBehaviour :=
  { exModule with call := fun _ _ _ => none }

/-- A host over `trapModule`. -/
def trapHost : WasmerHost :=
  { exHost with module := trapModule }

/-- `exModule` whose dispatch export answers one byte that is not UTF-8. -/
def badUtf8Module : ModuleBehaviour :=
  { exModule with
    call := fun name _ mem =>
      if name = "run_module_function" then some (1, [0, 0, 255, 0, 0, 0, 0, 0])
      else exModule.call name [] mem }

/-- A host over `badUtf8Module`. -/
def badUtf8Host : WasmerHost :=
  { exHost with module := badUtf8Module }

/-- A codec that always fails to serialize. -/
def noneSer : Serializer := fun _ => none

/-- A registry that resolves nothing. -/
def emptyReg : Registry := fun _ => none

/-- A registry whose artifact fails to instantiate. -/
def instFailReg : Registry := fun _ => some { instantiate := none }

/-- A registry resolving every name to the given behaviour. -/
def regOf (m : ModuleBehaviour) : Registry :=
  fun _ => some { instantiate := some m }

/-- `exModule` exporting only `new_runtime`. -/
def noAsyncModule : ModuleBehaviour :=
  { exModule with hasExport := fun s => s == "new_runtime" }

/-- `exModule` whose calls trap from `new_async_runtime` onward. -/
def asyncTrapModule : ModuleBehaviour :=
  { exModule with
    call := fun name _ mem =>
      if name = "new_runtime" then some (7, mem) else none }

/-- `exModule` exporting only the two engine allocators. -/
def noPbpModule : ModuleBehaviour :=
  { exModule with
    hasExport := fun s => s == "new_runtime" || s == "new_async_runtime" }

/-- `exModule` whose calls trap from `parameter_buffer_ptr` onward. -/
def pbpTrapModule : ModuleBehaviour :=
  { exModule with
    call := fun name _ mem =>
      if name = "new_runtime" then some (7, mem)
      else if name = "new_async_runtime" then some (9, mem)
      else none }

/-! ### Elimination helpers shared by several claims -/


/-- A successful `new_wasi_dev_instance` means the registry resolved the name
and instantiation succeeded. -/
theorem new_wasi_dev_instance_ok_elim {registry : Registry} {runtime : String}
    {b : ModuleBehaviour}
    (hok : new_wasi_dev_instance registry runtime = .ok b) :
    ∃ compiled, registry runtime = some compiled ∧ compiled.instantiate = some b := by
  unfold new_wasi_dev_instance at hok
  split at hok
  · simp at hok
  next compiled hreg =>
    split at hok
    · simp at hok
    next b2 hinst =>
      simp only [Except.ok.injEq] at hok
      exact ⟨compiled, hreg, hok ▸ hinst⟩

/-- Successful bootstrap fully characterized: the log is exactly the three
handshake calls, and the three stored integers are the three call results. -/
theorem new_wasi_dev_ok_elim {registry : Registry} {runtime : String}
    {h : WasmerHost} {log : List GuestCall}
    (hok : new_wasi_dev registry runtime = .ok (h, log)) :
    log = [("new_runtime", []), ("new_async_runtime", []),
           ("parameter_buffer_ptr", [])] ∧
    ∃ compiled m1 m2 m3,
      registry runtime = some compiled ∧
      compiled.instantiate = some h.module ∧
      h.module.hasExport "new_runtime" = true ∧
      h.module.call "new_runtime" [] h.module.initMem = some (h.js_rt_ptr, m1) ∧
      h.module.hasExport "new_async_runtime" = true ∧
      h.module.call "new_async_runtime" [] m1 = some (h.async_rt_ptr, m2) ∧
      h.module.hasExport "parameter_buffer_ptr" = true ∧
      h.module.call "parameter_buffer_ptr" [] m2 = some (h.parameter_buffer_ptr, m3) ∧
      h.memory = m3 := by
  unfold new_wasi_dev at hok
  split at hok
  · simp at hok
  next b hni =>
    obtain ⟨compiled, hreg, hinst⟩ := new_wasi_dev_instance_ok_elim hni
    split at hok
    case isFalse => simp at hok
    next hex1 =>
      split at hok
      · simp at hok
      next j m1 hc1 =>
        split at hok
        case isFalse => simp at hok
        next hex2 =>
          split at hok
          · simp at hok
          next a m2 hc2 =>
            split at hok
            case isFalse => simp at hok
            next hex3 =>
              split at hok
              · simp at hok
              next p m3 hc3 =>
                simp only [Except.ok.injEq, Prod.mk.injEq] at hok
                obtain ⟨hh, hlog⟩ := hok
                subst hh
                exact ⟨hlog.symm, compiled, m1, m2, m3, hreg, hinst,
                       hex1, hc1, hex2, hc2, hex3, hc3, rfl⟩

/-- A successful compile call preserves the three handshake fields and the
module, and performs exactly one `compile_module` invocation with the
documented arguments. -/
theorem compile_to_bytecode_ok_elim {h : WasmerHost} {name : String}
    {code out : Mem} {h2 : WasmerHost} {log : List GuestCall}
    (hok : h.compile_to_bytecode name code = .ok (out, h2, log)) :
    h2.js_rt_ptr = h.js_rt_ptr ∧ h2.async_rt_ptr = h.async_rt_ptr ∧
    h2.parameter_buffer_ptr = h.parameter_buffer_ptr ∧ h2.module = h.module ∧
    log = [("compile_module",
            [h.async_rt_ptr, h.js_rt_ptr, usizeAsI32 code.length])] := by
  unfold WasmerHost.compile_to_bytecode at hok
  split at hok
  case isFalse => simp at hok
  next hmem =>
    split at hok
    · simp at hok
    next data1 hwrite =>
      split at hok
      case isFalse => simp at hok
      next hex =>
        split at hok
        · simp at hok
        next sz data2 hcall =>
          split at hok
          · simp at hok
          next bytecode hread =>
            simp only [Except.ok.injEq, Prod.mk.injEq] at hok
            obtain ⟨hout, hh, hlog⟩ := hok
            subst hh
            exact ⟨rfl, rfl, rfl, rfl, hlog.symm⟩

/-- A successful eval preserves the three handshake fields and the module, and
performs exactly one `run` invocation with the documented arguments. -/
theorem eval_ok_elim {h : WasmerHost} {js : Mem} {h2 : WasmerHost}
    {log : List GuestCall}
    (hok : h.eval js = .ok ((), h2, log)) :
    h2.js_rt_ptr = h.js_rt_ptr ∧ h2.async_rt_ptr = h.async_rt_ptr ∧
    h2.parameter_buffer_ptr = h.parameter_buffer_ptr ∧ h2.module = h.module ∧
    log = [("run", [h.async_rt_ptr, h.js_rt_ptr, usizeAsI32 js.length])] := by
  unfold WasmerHost.eval at hok
  split at hok
  case isFalse => simp at hok
  next hmem =>
    split at hok
    case isFalse => simp at hok
    next hex =>
      split at hok
      · simp at hok
      next data1 hwrite =>
        split at hok
        · simp at hok
        next st data2 hcall =>
          simp only [Except.ok.injEq, Prod.mk.injEq] at hok
          obtain ⟨hunit, hh, hlog⟩ := hok
          subst hh
          exact ⟨rfl, rfl, rfl, rfl, hlog.symm⟩

/-- A successful `run_module_function` preserves the three handshake fields
and the module, and performs exactly one dispatch invocation with the
documented arguments for some serialized payload accepted by the codec. -/
theorem run_module_function_ok_elim {h : WasmerHost} {ser : Serializer}
    {p : RunModuleFunctionParameters} {out : Mem} {h2 : WasmerHost}
    {log : List GuestCall}
    (hok : h.run_module_function ser p = .ok (out, h2, log)) :
    h2.js_rt_ptr = h.js_rt_ptr ∧ h2.async_rt_ptr = h.async_rt_ptr ∧
    h2.parameter_buffer_ptr = h.parameter_buffer_ptr ∧ h2.module = h.module ∧
    ∃ serialized, ser (h.serializedRequest p) = some serialized ∧
      log = [("run_module_function",
              [h.async_rt_ptr, usizeAsI32 serialized.length])] := by
  unfold WasmerHost.run_module_function at hok
  split at hok
  case isFalse => simp at hok
  next hmem =>
    split at hok
    case isFalse => simp at hok
    next hex =>
      split at hok
      · simp at hok
      next serialized hser =>
        split at hok
        · simp at hok
        next data1 hwrite =>
          split at hok
          · simp at hok
          next res data2 hcall =>
            split at hok
            · simp at hok
            next json hread =>
              split at hok
              case isFalse => simp at hok
              next hutf =>
                simp only [Except.ok.injEq, Prod.mk.injEq] at hok
                obtain ⟨hout, hh, hlog⟩ := hok
                subst hh
                exact ⟨rfl, rfl, rfl, rfl, serialized, hser, hlog.symm⟩

/-! ### Claim theorems -/

/-- C1: for every source byte sequence that fits in the buffer,
`compile_to_bytecode` writes the source bytes at the negotiated parameter
buffer offset, invokes the module's compile export with exactly the arguments
(async_engine_ptr, script_engine_ptr, len(source)) in that order, interprets
the single integer result as an output byte length n, and returns exactly the
n bytes read back from the same buffer offset. -/
theorem c1_compile_to_bytecode_happy_path
    (h : WasmerHost) (name : String) (code : Mem) (n : Int) (m2 : Mem)
    (hmem : h.module.hasMemory = true)
    (hfits : h.bufPtr + code.length ≤ h.memory.length)
    (hex : h.module.hasExport "compile_module" = true)
    (hcall : h.module.call "compile_module"
        [h.async_rt_ptr, h.js_rt_ptr, usizeAsI32 code.length]
        (h.writtenMem code) = some (n, m2))
    (hread : h.bufPtr + i32AsUsize n ≤ m2.length) :
    h.compile_to_bytecode name code =
      .ok ((m2.drop h.bufPtr).take (i32AsUsize n), { h with memory := m2 },
           [("compile_module",
             [h.async_rt_ptr, h.js_rt_ptr, usizeAsI32 code.length])]) := by
  have hw : h.slice_to_buffer h.memory code = .ok (h.writtenMem code) := by
    unfold WasmerHost.slice_to_buffer writeRange WasmerHost.writtenMem
    rw [if_pos hfits]
  unfold WasmerHost.compile_to_bytecode
  rw [hmem, hw, hex]
  simp only [if_true]
  rw [hcall]
  unfold sliceRange
  dsimp only
  rw [if_pos hread]

/-- Witness for C1: a concrete host whose compile export answers 3 bytes. -/
theorem c1_witness :
    exHost.compile_to_bytecode "some-name" [1, 2] =
      .ok ((([0, 0, 10, 11, 12, 0, 0, 0] : Mem).drop exHost.bufPtr).take
             (i32AsUsize 3),
           { exHost with memory := [0, 0, 10, 11, 12, 0, 0, 0] },
           [("compile_module",
             [exHost.async_rt_ptr, exHost.js_rt_ptr, usizeAsI32 2])]) := by
  exact c1_compile_to_bytecode_happy_path exHost "some-name" [1, 2] 3
    [0, 0, 10, 11, 12, 0, 0, 0] rfl (by decide) rfl (by decide) (by decide)

/-- C3: `run_module_function` sets the request's runtime field to the current
`script_engine_ptr` before serializing, regardless of the caller-supplied
parameter content, so the serialized request always carries the current
script-engine handle. -/
theorem c3_run_module_function_injects_script_engine_ptr
    (h : WasmerHost) (ser : Serializer) (p : RunModuleFunctionParameters)
    (r : Nat) :
    h.serializedRequest p =
      { functionName := p.functionName, args := p.args,
        rt := i32AsU32 h.js_rt_ptr } ∧
    h.run_module_function ser p = h.run_module_function ser (p.set_rt r) :=
  ⟨rfl, rfl⟩

/-- C5: a payload longer than the remaining capacity past the buffer offset
makes the write (and symmetrically the read-back) fail with the memory-access
fault; the failing operation yields no buffer at all, so no partial bytes are
ever written. -/
theorem c5_oversized_payload_faults
    (h : WasmerHost) (buffer source : Mem) (len : Int) :
    (buffer.length < h.bufPtr + source.length →
      h.slice_to_buffer buffer source = .error .memoryAccessFault) ∧
    (buffer.length < h.bufPtr + i32AsUsize len →
      h.read_returned_value buffer len = .error .memoryAccessFault) := by
  constructor
  · intro hover
    unfold WasmerHost.slice_to_buffer writeRange
    rw [if_neg (by omega)]
  · intro hover
    unfold WasmerHost.read_returned_value sliceRange
    rw [if_neg (by omega)]

/-- Witness for C5: a 3-byte memory with buffer offset 2 rejects a 2-byte
write and a 7-byte read. -/
theorem c5_witness :
    exHost.slice_to_buffer [0, 0, 0] [1, 2] = .error .memoryAccessFault ∧
    exHost.read_returned_value [0, 0, 0] 7 = .error .memoryAccessFault :=
  ⟨(c5_oversized_payload_faults exHost [0, 0, 0] [1, 2] 7).1 (by decide),
   (c5_oversized_payload_faults exHost [0, 0, 0] [1, 2] 7).2 (by decide)⟩

/-- C9: the result of the `compile_to_bytecode` method is independent of its
first string argument — the argument is ignored. -/
theorem c9_compile_ignores_runtime_name
    (h : WasmerHost) (s1 s2 : String) (code : Mem) :
    h.compile_to_bytecode s1 code = h.compile_to_bytecode s2 code := rfl

/-- C2 counterexample: on a host whose module lacks the `"memory"` export, the
`eval` operation's failure is a process-terminating panic (`unwrap` on the
missing export), not a typed error result returned to the immediate caller —
so not every §4 failure surfaces as a typed result. -/
theorem c2_counterexample_eval_panics :
    noMemHost.eval [65] = .error (.panicked (.unwrapFailed "get_memory")) ∧
    resultPanicked (noMemHost.eval [65]) = true ∧
    resultTyped (noMemHost.eval [65]) = false :=
  ⟨rfl, rfl, rfl⟩

/-- C4: `run_module_function` invokes the dispatch export with exactly
(async_engine_ptr, len(serialized)), takes the returned integer as the
response byte length, reads that many bytes back from the buffer offset,
checks they decode as UTF-8, and returns the resulting text (represented by
its UTF-8 bytes) to the caller. -/
theorem c4_run_module_function_happy_path
    (h : WasmerHost) (ser : Serializer) (p : RunModuleFunctionParameters)
    (serialized : Mem) (res : Int) (m2 : Mem)
    (hmem : h.module.hasMemory = true)
    (hex : h.module.hasExport "run_module_function" = true)
    (hser : ser (h.serializedRequest p) = some serialized)
    (hfits : h.bufPtr + serialized.length ≤ h.memory.length)
    (hcall : h.module.call "run_module_function"
        [h.async_rt_ptr, usizeAsI32 serialized.length]
        (h.writtenMem serialized) = some (res, m2))
    (hread : h.bufPtr + i32AsUsize res ≤ m2.length)
    (hutf : utf8Valid ((m2.drop h.bufPtr).take (i32AsUsize res)) = true) :
    h.run_module_function ser p =
      .ok ((m2.drop h.bufPtr).take (i32AsUsize res), { h with memory := m2 },
           [("run_module_function",
             [h.async_rt_ptr, usizeAsI32 serialized.length])]) := by
  have hw : h.slice_to_buffer h.memory serialized =
      .ok (h.writtenMem serialized) := by
    unfold WasmerHost.slice_to_buffer writeRange WasmerHost.writtenMem
    rw [if_pos hfits]
  unfold WasmerHost.run_module_function
  rw [hmem, hex]
  simp only [if_true]
  rw [hser]
  dsimp only
  rw [hw]
  dsimp only
  rw [hcall]
  unfold WasmerHost.read_returned_value sliceRange
  dsimp only
  rw [if_pos hread]
  dsimp only
  rw [hutf]
  simp only [if_true]

/-- Witness for C4: the concrete dispatch answers the text "AB". -/
theorem c4_witness :
    exHost.run_module_function exSer ⟨"getX", [], 0⟩ =
      .ok ((([0, 0, 65, 66, 0, 0, 0, 0] : Mem).drop exHost.bufPtr).take
             (i32AsUsize 2),
           { exHost with memory := [0, 0, 65, 66, 0, 0, 0, 0] },
           [("run_module_function", [exHost.async_rt_ptr, usizeAsI32 1])]) := by
  exact c4_run_module_function_happy_path exHost exSer ⟨"getX", [], 0⟩ [7] 2
    [0, 0, 65, 66, 0, 0, 0, 0] rfl rfl (by decide) (by decide) (by decide)
    (by decide) (by decide)

/-- C6: the free-function entry point bootstraps a fresh Instance for the
runtime name on every invocation and performs exactly one compile call on it:
on success, its invocation log is exactly the fresh bootstrap's three
handshake calls followed by a single `compile_module` call on the
freshly-bootstrapped host's handles. -/
theorem c6_entry_point_fresh_bootstrap_one_compile
    (registry : Registry) (runtime : String) (js out : Mem)
    (log log0 : List GuestCall) (h : WasmerHost)
    (hboot : new_wasi_dev registry runtime = .ok (h, log0))
    (hok : compile_to_bytecode registry runtime js = .ok (out, log)) :
    log0 = [("new_runtime", []), ("new_async_runtime", []),
            ("parameter_buffer_ptr", [])] ∧
    log = log0 ++ [("compile_module",
                    [h.async_rt_ptr, h.js_rt_ptr, usizeAsI32 js.length])] := by
  have hlog0 := (new_wasi_dev_ok_elim hboot).1
  unfold compile_to_bytecode at hok
  rw [hboot] at hok
  dsimp only at hok
  refine ⟨hlog0, ?_⟩
  cases hcomp : h.compile_to_bytecode "mod1" js with
  | error e => rw [hcomp] at hok; simp at hok
  | ok v =>
    obtain ⟨bytes, h2, log1⟩ := v
    rw [hcomp] at hok
    dsimp only at hok
    obtain ⟨_, _, _, _, hlog1⟩ := compile_to_bytecode_ok_elim hcomp
    simp only [Except.ok.injEq, Prod.mk.injEq] at hok
    obtain ⟨_, hlog⟩ := hok
    rw [← hlog, hlog1]

/-- Witness for C6 on the concrete registry `exReg`. -/
theorem c6_witness :
    ([("new_runtime", []), ("new_async_runtime", []),
      ("parameter_buffer_ptr", [])] : List GuestCall) =
      [("new_runtime", []), ("new_async_runtime", []),
       ("parameter_buffer_ptr", [])] ∧
    ([("new_runtime", []), ("new_async_runtime", []),
      ("parameter_buffer_ptr", []), ("compile_module", [9, 7, 2])] :
        List GuestCall) =
      [("new_runtime", []), ("new_async_runtime", []),
       ("parameter_buffer_ptr", [])] ++
        [("compile_module",
          [exHost.async_rt_ptr, exHost.js_rt_ptr, usizeAsI32 2])] := by
  exact c6_entry_point_fresh_bootstrap_one_compile exReg "mod1" [1, 2]
    [10, 11, 12]
    [("new_runtime", []), ("new_async_runtime", []),
     ("parameter_buffer_ptr", []), ("compile_module", [9, 7, 2])]
    [("new_runtime", []), ("new_async_runtime", []),
     ("parameter_buffer_ptr", [])]
    exHost rfl rfl

/-- C7: after instantiation, bootstrap performs exactly the three zero-argument
handshake calls and stores all three returned integers in the returned host;
any missing export or call failure at this stage yields no host at all (a
successful result certifies the whole handshake completed). -/
theorem c7_bootstrap_handshake_complete
    (registry : Registry) (runtime : String) (h : WasmerHost)
    (log : List GuestCall)
    (hok : new_wasi_dev registry runtime = .ok (h, log)) :
    log = [("new_runtime", []), ("new_async_runtime", []),
           ("parameter_buffer_ptr", [])] ∧
    ∃ compiled m1 m2 m3,
      registry runtime = some compiled ∧
      compiled.instantiate = some h.module ∧
      h.module.hasExport "new_runtime" = true ∧
      h.module.call "new_runtime" [] h.module.initMem = some (h.js_rt_ptr, m1) ∧
      h.module.hasExport "new_async_runtime" = true ∧
      h.module.call "new_async_runtime" [] m1 = some (h.async_rt_ptr, m2) ∧
      h.module.hasExport "parameter_buffer_ptr" = true ∧
      h.module.call "parameter_buffer_ptr" [] m2 =
        some (h.parameter_buffer_ptr, m3) ∧
      h.memory = m3 :=
  new_wasi_dev_ok_elim hok

/-- Witness for C7: bootstrap of the concrete registry succeeds and is fully
characterized. -/
theorem c7_witness :
    ([("new_runtime", []), ("new_async_runtime", []),
      ("parameter_buffer_ptr", [])] : List GuestCall) =
      [("new_runtime", []), ("new_async_runtime", []),
       ("parameter_buffer_ptr", [])] ∧
    ∃ compiled m1 m2 m3,
      exReg "mod1" = some compiled ∧
      compiled.instantiate = some exHost.module ∧
      exHost.module.hasExport "new_runtime" = true ∧
      exHost.module.call "new_runtime" [] exHost.module.initMem =
        some (exHost.js_rt_ptr, m1) ∧
      exHost.module.hasExport "new_async_runtime" = true ∧
      exHost.module.call "new_async_runtime" [] m1 =
        some (exHost.async_rt_ptr, m2) ∧
      exHost.module.hasExport "parameter_buffer_ptr" = true ∧
      exHost.module.call "parameter_buffer_ptr" [] m2 =
        some (exHost.parameter_buffer_ptr, m3) ∧
      exHost.memory = m3 :=
  c7_bootstrap_handshake_complete exReg "mod1" exHost
    [("new_runtime", []), ("new_async_runtime", []),
     ("parameter_buffer_ptr", [])] rfl

/-- C8: the fields `js_rt_ptr`, `async_rt_ptr` and `parameter_buffer_ptr` are
unchanged by every operation, and every request write and response read goes
through the single offset `parameter_buffer_ptr`. -/
theorem c8_handles_immutable_single_offset
    (h : WasmerHost) (name : String) (code js : Mem) (ser : Serializer)
    (p : RunModuleFunctionParameters) (buffer payload : Mem) (len : Int) :
    (∀ out h2 log, h.compile_to_bytecode name code = .ok (out, h2, log) →
      h2.js_rt_ptr = h.js_rt_ptr ∧ h2.async_rt_ptr = h.async_rt_ptr ∧
      h2.parameter_buffer_ptr = h.parameter_buffer_ptr) ∧
    (∀ h2 log, h.eval js = .ok ((), h2, log) →
      h2.js_rt_ptr = h.js_rt_ptr ∧ h2.async_rt_ptr = h.async_rt_ptr ∧
      h2.parameter_buffer_ptr = h.parameter_buffer_ptr) ∧
    (∀ out h2 log, h.run_module_function ser p = .ok (out, h2, log) →
      h2.js_rt_ptr = h.js_rt_ptr ∧ h2.async_rt_ptr = h.async_rt_ptr ∧
      h2.parameter_buffer_ptr = h.parameter_buffer_ptr) ∧
    h.slice_to_buffer buffer payload =
      writeRange buffer (i32AsUsize h.parameter_buffer_ptr) payload ∧
    h.read_returned_value buffer len =
      sliceRange buffer (i32AsUsize h.parameter_buffer_ptr) (i32AsUsize len) := by
  refine ⟨?_, ?_, ?_, rfl, rfl⟩
  · intro out h2 log hok
    obtain ⟨a, b, c, _, _⟩ := compile_to_bytecode_ok_elim hok
    exact ⟨a, b, c⟩
  · intro h2 log hok
    obtain ⟨a, b, c, _, _⟩ := eval_ok_elim hok
    exact ⟨a, b, c⟩
  · intro out h2 log hok
    obtain ⟨a, b, c, _, _⟩ := run_module_function_ok_elim hok
    exact ⟨a, b, c⟩

/-- Witness for C8: concrete successful runs of all three operations preserve
the three fields, and the write/read helpers use the single offset. -/
theorem c8_witness :
    (({ exHost with memory := [0, 0, 10, 11, 12, 0, 0, 0] } :
        WasmerHost).js_rt_ptr = exHost.js_rt_ptr ∧
     ({ exHost with memory := [0, 0, 10, 11, 12, 0, 0, 0] } :
        WasmerHost).async_rt_ptr = exHost.async_rt_ptr ∧
     ({ exHost with memory := [0, 0, 10, 11, 12, 0, 0, 0] } :
        WasmerHost).parameter_buffer_ptr = exHost.parameter_buffer_ptr) ∧
    (({ exHost with memory := [0, 0, 65, 0, 0, 0, 0, 0] } :
        WasmerHost).js_rt_ptr = exHost.js_rt_ptr ∧
     ({ exHost with memory := [0, 0, 65, 0, 0, 0, 0, 0] } :
        WasmerHost).async_rt_ptr = exHost.async_rt_ptr ∧
     ({ exHost with memory := [0, 0, 65, 0, 0, 0, 0, 0] } :
        WasmerHost).parameter_buffer_ptr = exHost.parameter_buffer_ptr) ∧
    (({ exHost with memory := [0, 0, 65, 66, 0, 0, 0, 0] } :
        WasmerHost).js_rt_ptr = exHost.js_rt_ptr ∧
     ({ exHost with memory := [0, 0, 65, 66, 0, 0, 0, 0] } :
        WasmerHost).async_rt_ptr = exHost.async_rt_ptr ∧
     ({ exHost with memory := [0, 0, 65, 66, 0, 0, 0, 0] } :
        WasmerHost).parameter_buffer_ptr = exHost.parameter_buffer_ptr) ∧
    exHost.slice_to_buffer [0, 0, 0] [1] =
      writeRange [0, 0, 0] (i32AsUsize exHost.parameter_buffer_ptr) [1] ∧
    exHost.read_returned_value [0, 0, 0] 3 =
      sliceRange [0, 0, 0] (i32AsUsize exHost.parameter_buffer_ptr)
        (i32AsUsize 3) := by
  obtain ⟨hc, he, hr, hw, hrd⟩ := c8_handles_immutable_single_offset exHost
    "r" [1, 2] [65] exSer ⟨"getX", [], 0⟩ [0, 0, 0] [1] 3
  exact ⟨hc [10, 11, 12] _ [("compile_module", [9, 7, 2])] rfl,
         he _ [("run", [9, 7, 1])] rfl,
         hr [65, 66] _ [("run_module_function", [9, 1])] rfl,
         hw, hrd⟩

/-- C10: the integer length returned by a module export bounds the read-back
slice without validation.  The `i32` is cast to `usize` by sign-extension, so
any negative value becomes a bound of at least 2^64 - 2^31; and whenever the
resulting bound exceeds the memory remaining past the buffer offset, both
`compile_to_bytecode` and `run_module_function` end in the out-of-bounds
slice-access fault (a panic), never in a typed error rejecting the length. -/
theorem c10_unvalidated_length_out_of_bounds
    (h : WasmerHost) (name : String) (code serialized m2 m3 : Mem)
    (n res : Int) (ser : Serializer) (p : RunModuleFunctionParameters) :
    (-2 ^ 31 ≤ n → n < 0 → 2 ^ 64 - 2 ^ 31 ≤ i32AsUsize n) ∧
    (h.module.hasMemory = true →
     h.bufPtr + code.length ≤ h.memory.length →
     h.module.hasExport "compile_module" = true →
     h.module.call "compile_module"
        [h.async_rt_ptr, h.js_rt_ptr, usizeAsI32 code.length]
        (h.writtenMem code) = some (n, m2) →
     m2.length < h.bufPtr + i32AsUsize n →
     h.compile_to_bytecode name code =
       .error (.panicked .memoryAccessFault)) ∧
    (h.module.hasMemory = true →
     h.module.hasExport "run_module_function" = true →
     ser (h.serializedRequest p) = some serialized →
     h.bufPtr + serialized.length ≤ h.memory.length →
     h.module.call "run_module_function"
        [h.async_rt_ptr, usizeAsI32 serialized.length]
        (h.writtenMem serialized) = some (res, m3) →
     m3.length < h.bufPtr + i32AsUsize res →
     h.run_module_function ser p =
       .error (.panicked .memoryAccessFault)) := by
  refine ⟨?_, ?_, ?_⟩
  · intro hlo hneg
    unfold i32AsUsize
    omega
  · intro hmem hfits hex hcall hover
    have hw : h.slice_to_buffer h.memory code = .ok (h.writtenMem code) := by
      unfold WasmerHost.slice_to_buffer writeRange WasmerHost.writtenMem
      rw [if_pos hfits]
    unfold WasmerHost.compile_to_bytecode
    rw [hmem, hw, hex]
    simp only [if_true]
    rw [hcall]
    unfold sliceRange
    dsimp only
    rw [if_neg (by omega)]
  · intro hmem hex hser hfits hcall hover
    have hw : h.slice_to_buffer h.memory serialized =
        .ok (h.writtenMem serialized) := by
      unfold WasmerHost.slice_to_buffer writeRange WasmerHost.writtenMem
      rw [if_pos hfits]
    unfold WasmerHost.run_module_function
    rw [hmem, hex]
    simp only [if_true]
    rw [hser]
    dsimp only
    rw [hw]
    dsimp only
    rw [hcall]
    unfold WasmerHost.read_returned_value sliceRange
    dsimp only
    rw [if_neg (by omega)]

/-- Witness for C10: a module answering length -1 drives both operations into
the out-of-bounds fault, and -1 sign-extends to 2^64 - 1. -/
theorem c10_witness :
    (2 : Nat) ^ 64 - 2 ^ 31 ≤ i32AsUsize (-1) ∧
    negLenHost.compile_to_bytecode "r" [1] =
      .error (.panicked .memoryAccessFault) ∧
    negLenHost.run_module_function exSer ⟨"f", [], 0⟩ =
      .error (.panicked .memoryAccessFault) := by
  obtain ⟨h1, h2, h3⟩ := c10_unvalidated_length_out_of_bounds negLenHost "r"
    [1] [7] [0, 0, 1, 0, 0, 0, 0, 0] [0, 0, 7, 0, 0, 0, 0, 0] (-1) (-1) exSer
    ⟨"f", [], 0⟩
  exact ⟨h1 (by decide) (by decide),
         h2 rfl (by decide) rfl (by decide) (by decide),
         h3 rfl rfl (by decide) (by decide) (by decide) (by decide)⟩

/-- C2 amended: failures reached through the `?` operator — `get_memory`,
`get_function` and the guest compile call in `compile_to_bytecode`, and the
guest dispatch call in `run_module_function` — surface to the immediate
caller as typed error results, while every failure site that `unwrap`s — all
of `eval` (memory lookup, function lookup, guest call), the remaining steps
of `run_module_function` (memory lookup, function lookup, serialization,
UTF-8 decoding), and every step of bootstrap (registry lookup,
instantiation, each export lookup and each handshake call) — terminates the
process by panic.  In neither case is a failure silently downgraded or
replaced by a fallback value: each conjunct below pins the exact outcome of
one failure site. -/
theorem c2_amended_failure_surfacing
    (h : WasmerHost) (name : String) (code js serialized : Mem)
    (res jv av : Int) (m2 mw1 mw2 : Mem) (ser : Serializer)
    (p : RunModuleFunctionParameters) (registry : Registry)
    (runtime : String) (b : ModuleBehaviour) :
    (h.module.hasMemory = false →
      h.compile_to_bytecode name code =
        .error (.typed (.exportMissing "memory"))) ∧
    (h.module.hasMemory = true →
     h.bufPtr + code.length ≤ h.memory.length →
     h.module.hasExport "compile_module" = false →
      h.compile_to_bytecode name code =
        .error (.typed (.exportMissing "compile_module"))) ∧
    (h.module.hasMemory = true →
     h.bufPtr + code.length ≤ h.memory.length →
     h.module.hasExport "compile_module" = true →
     h.module.call "compile_module"
        [h.async_rt_ptr, h.js_rt_ptr, usizeAsI32 code.length]
        (h.writtenMem code) = none →
      h.compile_to_bytecode name code =
        .error (.typed (.guestTrap "compile_module"))) ∧
    (h.module.hasMemory = false →
      h.eval js = .error (.panicked (.unwrapFailed "get_memory"))) ∧
    (h.module.hasMemory = true →
     h.module.hasExport "run" = false →
      h.eval js = .error (.panicked (.unwrapFailed "get_function run"))) ∧
    (h.module.hasMemory = true →
     h.module.hasExport "run" = true →
     h.bufPtr + js.length ≤ h.memory.length →
     h.module.call "run" [h.async_rt_ptr, h.js_rt_ptr, usizeAsI32 js.length]
        (h.writtenMem js) = none →
      h.eval js = .error (.panicked (.unwrapFailed "run call"))) ∧
    (h.module.hasMemory = false →
      h.run_module_function ser p =
        .error (.panicked (.unwrapFailed "get_memory"))) ∧
    (h.module.hasMemory = true →
     h.module.hasExport "run_module_function" = false →
      h.run_module_function ser p =
        .error (.panicked (.unwrapFailed "get_function run_module_function"))) ∧
    (h.module.hasMemory = true →
     h.module.hasExport "run_module_function" = true →
     ser (h.serializedRequest p) = none →
      h.run_module_function ser p =
        .error (.panicked (.unwrapFailed "bincode serialize"))) ∧
    (h.module.hasMemory = true →
     h.module.hasExport "run_module_function" = true →
     ser (h.serializedRequest p) = some serialized →
     h.bufPtr + serialized.length ≤ h.memory.length →
     h.module.call "run_module_function"
        [h.async_rt_ptr, usizeAsI32 serialized.length]
        (h.writtenMem serialized) = none →
      h.run_module_function ser p =
        .error (.typed (.guestTrap "run_module_function"))) ∧
    (h.module.hasMemory = true →
     h.module.hasExport "run_module_function" = true →
     ser (h.serializedRequest p) = some serialized →
     h.bufPtr + serialized.length ≤ h.memory.length →
     h.module.call "run_module_function"
        [h.async_rt_ptr, usizeAsI32 serialized.length]
        (h.writtenMem serialized) = some (res, m2) →
     h.bufPtr + i32AsUsize res ≤ m2.length →
     utf8Valid ((m2.drop h.bufPtr).take (i32AsUsize res)) = false →
      h.run_module_function ser p =
        .error (.panicked (.unwrapFailed "from_utf8"))) ∧
    (registry runtime = none →
      new_wasi_dev registry runtime =
        .error (.panicked (.unwrapFailed "registry get_module"))) ∧
    (registry runtime = some { instantiate := none } →
      new_wasi_dev registry runtime =
        .error (.panicked (.unwrapFailed "Instance new"))) ∧
    (registry runtime = some { instantiate := some b } →
     b.hasExport "new_runtime" = false →
      new_wasi_dev registry runtime =
        .error (.panicked (.unwrapFailed "get_function new_runtime"))) ∧
    (registry runtime = some { instantiate := some b } →
     b.hasExport "new_runtime" = true →
     b.call "new_runtime" [] b.initMem = none →
      new_wasi_dev registry runtime =
        .error (.panicked (.unwrapFailed "new_runtime call"))) ∧
    (registry runtime = some { instantiate := some b } →
     b.hasExport "new_runtime" = true →
     b.call "new_runtime" [] b.initMem = some (jv, mw1) →
     b.hasExport "new_async_runtime" = false →
      new_wasi_dev registry runtime =
        .error (.panicked (.unwrapFailed "get_function new_async_runtime"))) ∧
    (registry runtime = some { instantiate := some b } →
     b.hasExport "new_runtime" = true →
     b.call "new_runtime" [] b.initMem = some (jv, mw1) →
     b.hasExport "new_async_runtime" = true →
     b.call "new_async_runtime" [] mw1 = none →
      new_wasi_dev registry runtime =
        .error (.panicked (.unwrapFailed "new_async_runtime call"))) ∧
    (registry runtime = some { instantiate := some b } →
     b.hasExport "new_runtime" = true →
     b.call "new_runtime" [] b.initMem = some (jv, mw1) →
     b.hasExport "new_async_runtime" = true →
     b.call "new_async_runtime" [] mw1 = some (av, mw2) →
     b.hasExport "parameter_buffer_ptr" = false →
      new_wasi_dev registry runtime =
        .error (.panicked (.unwrapFailed "get_function parameter_buffer_ptr"))) ∧
    (registry runtime = some { instantiate := some b } →
     b.hasExport "new_runtime" = true →
     b.call "new_runtime" [] b.initMem = some (jv, mw1) →
     b.hasExport "new_async_runtime" = true →
     b.call "new_async_runtime" [] mw1 = some (av, mw2) →
     b.hasExport "parameter_buffer_ptr" = true →
     b.call "parameter_buffer_ptr" [] mw2 = none →
      new_wasi_dev registry runtime =
        .error (.panicked (.unwrapFailed "parameter_buffer_ptr call"))) := by
  refine ⟨?_, ?_, ?_, ?_, ?_, ?_, ?_, ?_, ?_, ?_, ?_, ?_, ?_, ?_, ?_, ?_,
          ?_, ?_, ?_⟩
  · intro hmem
    unfold WasmerHost.compile_to_bytecode
    rw [hmem]
    simp
  · intro hmem hfits hex
    have hw : h.slice_to_buffer h.memory code = .ok (h.writtenMem code) := by
      unfold WasmerHost.slice_to_buffer writeRange WasmerHost.writtenMem
      rw [if_pos hfits]
    unfold WasmerHost.compile_to_bytecode
    rw [hmem, hw, hex]
    simp
  · intro hmem hfits hex hcall
    have hw : h.slice_to_buffer h.memory code = .ok (h.writtenMem code) := by
      unfold WasmerHost.slice_to_buffer writeRange WasmerHost.writtenMem
      rw [if_pos hfits]
    unfold WasmerHost.compile_to_bytecode
    rw [hmem, hw, hex]
    simp only [if_true]
    rw [hcall]
  · intro hmem
    unfold WasmerHost.eval
    rw [hmem]
    simp
  · intro hmem hex
    unfold WasmerHost.eval
    rw [hmem, hex]
    simp
  · intro hmem hex hfits hcall
    have hw : h.slice_to_buffer h.memory js = .ok (h.writtenMem js) := by
      unfold WasmerHost.slice_to_buffer writeRange WasmerHost.writtenMem
      rw [if_pos hfits]
    unfold WasmerHost.eval
    rw [hmem, hex]
    simp only [if_true]
    rw [hw]
    dsimp only
    rw [hcall]
  · intro hmem
    unfold WasmerHost.run_module_function
    rw [hmem]
    simp
  · intro hmem hex
    unfold WasmerHost.run_module_function
    rw [hmem, hex]
    simp
  · intro hmem hex hser
    unfold WasmerHost.run_module_function
    rw [hmem, hex]
    simp only [if_true]
    rw [hser]
  · intro hmem hex hser hfits hcall
    have hw : h.slice_to_buffer h.memory serialized =
        .ok (h.writtenMem serialized) := by
      unfold WasmerHost.slice_to_buffer writeRange WasmerHost.writtenMem
      rw [if_pos hfits]
    unfold WasmerHost.run_module_function
    rw [hmem, hex]
    simp only [if_true]
    rw [hser]
    dsimp only
    rw [hw]
    dsimp only
    rw [hcall]
  · intro hmem hex hser hfits hcall hread hutf
    have hw : h.slice_to_buffer h.memory serialized =
        .ok (h.writtenMem serialized) := by
      unfold WasmerHost.slice_to_buffer writeRange WasmerHost.writtenMem
      rw [if_pos hfits]
    unfold WasmerHost.run_module_function
    rw [hmem, hex]
    simp only [if_true]
    rw [hser]
    dsimp only
    rw [hw]
    dsimp only
    rw [hcall]
    unfold WasmerHost.read_returned_value sliceRange
    dsimp only
    rw [if_pos hread]
    dsimp only
    rw [hutf]
    simp
  · intro hreg
    unfold new_wasi_dev new_wasi_dev_instance
    rw [hreg]
  · intro hreg
    unfold new_wasi_dev new_wasi_dev_instance
    rw [hreg]
  · intro hreg hex1
    unfold new_wasi_dev new_wasi_dev_instance
    rw [hreg]
    dsimp only
    rw [hex1]
    simp
  · intro hreg hex1 hc1
    unfold new_wasi_dev new_wasi_dev_instance
    rw [hreg]
    dsimp only
    rw [hex1]
    simp only [if_true]
    rw [hc1]
  · intro hreg hex1 hc1 hex2
    unfold new_wasi_dev new_wasi_dev_instance
    rw [hreg]
    dsimp only
    rw [hex1]
    simp only [if_true]
    rw [hc1]
    dsimp only
    rw [hex2]
    simp
  · intro hreg hex1 hc1 hex2 hc2
    unfold new_wasi_dev new_wasi_dev_instance
    rw [hreg]
    dsimp only
    rw [hex1]
    simp only [if_true]
    rw [hc1]
    dsimp only
    rw [hex2]
    simp only [if_true]
    rw [hc2]
  · intro hreg hex1 hc1 hex2 hc2 hex3
    unfold new_wasi_dev new_wasi_dev_instance
    rw [hreg]
    dsimp only
    rw [hex1]
    simp only [if_true]
    rw [hc1]
    dsimp only
    rw [hex2]
    simp only [if_true]
    rw [hc2]
    dsimp only
    rw [hex3]
    simp
  · intro hreg hex1 hc1 hex2 hc2 hex3 hc3
    unfold new_wasi_dev new_wasi_dev_instance
    rw [hreg]
    dsimp only
    rw [hex1]
    simp only [if_true]
    rw [hc1]
    dsimp only
    rw [hex2]
    simp only [if_true]
    rw [hc2]
    dsimp only
    rw [hex3]
    simp only [if_true]
    rw [hc3]

/-- Witness for the amended C2: one concrete run for every failure site —
typed at the three `?` sites of `compile_to_bytecode` and the guest call of
`run_module_function`, panic at every `unwrap` site of `eval`,
`run_module_function` and bootstrap. -/
theorem c2_witness :
    noMemHost.compile_to_bytecode "r" [1] =
      .error (.typed (.exportMissing "memory")) ∧
    noFnHost.compile_to_bytecode "r" [1] =
      .error (.typed (.exportMissing "compile_module")) ∧
    trapHost.compile_to_bytecode "r" [1] =
      .error (.typed (.guestTrap "compile_module")) ∧
    noMemHost.eval [65] = .error (.panicked (.unwrapFailed "get_memory")) ∧
    noFnHost.eval [65] =
      .error (.panicked (.unwrapFailed "get_function run")) ∧
    trapHost.eval [65] = .error (.panicked (.unwrapFailed "run call")) ∧
    noMemHost.run_module_function exSer ⟨"f", [], 0⟩ =
      .error (.panicked (.unwrapFailed "get_memory")) ∧
    noFnHost.run_module_function exSer ⟨"f", [], 0⟩ =
      .error (.panicked (.unwrapFailed "get_function run_module_function")) ∧
    exHost.run_module_function noneSer ⟨"f", [], 0⟩ =
      .error (.panicked (.unwrapFailed "bincode serialize")) ∧
    trapHost.run_module_function exSer ⟨"f", [], 0⟩ =
      .error (.typed (.guestTrap "run_module_function")) ∧
    badUtf8Host.run_module_function exSer ⟨"f", [], 0⟩ =
      .error (.panicked (.unwrapFailed "from_utf8")) ∧
    new_wasi_dev emptyReg "m" =
      .error (.panicked (.unwrapFailed "registry get_module")) ∧
    new_wasi_dev instFailReg "m" =
      .error (.panicked (.unwrapFailed "Instance new")) ∧
    new_wasi_dev (regOf noFnModule) "m" =
      .error (.panicked (.unwrapFailed "get_function new_runtime")) ∧
    new_wasi_dev (regOf trapModule) "m" =
      .error (.panicked (.unwrapFailed "new_runtime call")) ∧
    new_wasi_dev (regOf noAsyncModule) "m" =
      .error (.panicked (.unwrapFailed "get_function new_async_runtime")) ∧
    new_wasi_dev (regOf asyncTrapModule) "m" =
      .error (.panicked (.unwrapFailed "new_async_runtime call")) ∧
    new_wasi_dev (regOf noPbpModule) "m" =
      .error (.panicked (.unwrapFailed "get_function parameter_buffer_ptr")) ∧
    new_wasi_dev (regOf pbpTrapModule) "m" =
      .error (.panicked (.unwrapFailed "parameter_buffer_ptr call")) := by
  obtain ⟨b1, _, _, b4, _, _, b7, _, _, _, _, b12, _, _, _, _, _, _, _⟩ :=
    c2_amended_failure_surfacing noMemHost "r" [1] [65] [7] 0 0 0 [] [] []
      exSer ⟨"f", [], 0⟩ emptyReg "m" exModule
  obtain ⟨_, c2c, _, _, c5, _, _, c8, _, _, _, _, c13, _, _, _, _, _, _⟩ :=
    c2_amended_failure_surfacing noFnHost "r" [1] [65] [7] 0 0 0 [] [] []
      exSer ⟨"f", [], 0⟩ instFailReg "m" exModule
  obtain ⟨_, _, d3, _, _, d6, _, _, _, d10, _, _, _, d14, _, _, _, _, _⟩ :=
    c2_amended_failure_surfacing trapHost "r" [1] [65] [7] 0 0 0 [] [] []
      exSer ⟨"f", [], 0⟩ (regOf noFnModule) "m" noFnModule
  obtain ⟨_, _, _, _, _, _, _, _, e9, _, _, _, _, _, e15, _, _, _, _⟩ :=
    c2_amended_failure_surfacing exHost "r" [1] [65] [7] 0 0 0 [] [] []
      noneSer ⟨"f", [], 0⟩ (regOf trapModule) "m" trapModule
  obtain ⟨_, _, _, _, _, _, _, _, _, _, f11, _, _, _, _, _, _, _, _⟩ :=
    c2_amended_failure_surfacing badUtf8Host "r" [1] [65] [7] 1 0 0
      [0, 0, 255, 0, 0, 0, 0, 0] [] [] exSer ⟨"f", [], 0⟩ emptyReg "m"
      exModule
  obtain ⟨_, _, _, _, _, _, _, _, _, _, _, _, _, _, _, g16, _, _, _⟩ :=
    c2_amended_failure_surfacing exHost "r" [1] [65] [7] 0 7 0 []
      [0, 0, 0, 0, 0, 0, 0, 0] [] exSer ⟨"f", [], 0⟩ (regOf noAsyncModule)
      "m" noAsyncModule
  obtain ⟨_, _, _, _, _, _, _, _, _, _, _, _, _, _, _, _, g17, _, _⟩ :=
    c2_amended_failure_surfacing exHost "r" [1] [65] [7] 0 7 0 []
      [0, 0, 0, 0, 0, 0, 0, 0] [] exSer ⟨"f", [], 0⟩ (regOf asyncTrapModule)
      "m" asyncTrapModule
  obtain ⟨_, _, _, _, _, _, _, _, _, _, _, _, _, _, _, _, _, g18, _⟩ :=
    c2_amended_failure_surfacing exHost "r" [1] [65] [7] 0 7 9 []
      [0, 0, 0, 0, 0, 0, 0, 0] [0, 0, 0, 0, 0, 0, 0, 0] exSer ⟨"f", [], 0⟩
      (regOf noPbpModule) "m" noPbpModule
  obtain ⟨_, _, _, _, _, _, _, _, _, _, _, _, _, _, _, _, _, _, g19⟩ :=
    c2_amended_failure_surfacing exHost "r" [1] [65] [7] 0 7 9 []
      [0, 0, 0, 0, 0, 0, 0, 0] [0, 0, 0, 0, 0, 0, 0, 0] exSer ⟨"f", [], 0⟩
      (regOf pbpTrapModule) "m" pbpTrapModule
  exact ⟨b1 rfl,
         c2c rfl (by decide) rfl,
         d3 rfl (by decide) rfl (by decide),
         b4 rfl,
         c5 rfl rfl,
         d6 rfl rfl (by decide) (by decide),
         b7 rfl,
         c8 rfl rfl,
         e9 rfl rfl rfl,
         d10 rfl rfl (by decide) (by decide) (by decide),
         f11 rfl rfl (by decide) (by decide) (by decide) (by decide)
           (by decide),
         b12 rfl,
         c13 rfl,
         d14 rfl rfl,
         e15 rfl rfl rfl,
         g16 rfl (by decide) (by decide) (by decide),
         g17 rfl rfl (by decide) rfl (by decide),
         g18 rfl (by decide) (by decide) (by decide) (by decide) (by decide),
         g19 rfl rfl (by decide) rfl (by decide) rfl (by decide)⟩
